import Mathlib

/-!
Shallow embedding of the incremental aggregation engine in `src/analysis.py`
(the per-photo "wrapped" analytics Lambda).  Python dicts/Counters are
modelled as insertion-ordered association lists, Python strings as Lean
`String` (compared by code point, as Python does), datetimes as an explicit
`Date`/`DateTime` record, and raised exceptions as `Except` errors.
-/

/-- A calendar date (proleptic Gregorian), as in Python `datetime.date`. -/
structure Date where
  y : Nat
  m : Nat
  d : Nat
deriving DecidableEq, Repr

/-- A wall-clock instant (UTC naive), as produced by `parse_timestamp`. -/
structure DateTime where
  date : Date
  hour : Nat
  minute : Nat
  second : Nat
deriving DecidableEq, Repr

/-- Gregorian leap-year rule, as in Python `calendar.isleap` /
`datetime`'s internal `_is_leap`. -/
def isLeap (y : Nat) : Bool :=
  (y % 4 == 0 && y % 100 != 0) || y % 400 == 0

/-- Month lengths for a (non-)leap year, January first. -/
def monthLengths (leap : Bool) : List Nat :=
  [31, if leap then 29 else 28, 31, 30, 31, 30, 31, 31, 30, 31, 30, 31]

/-- Number of days in month `m` (1-12) of year `y`. -/
def daysInMonth (y m : Nat) : Nat :=
  (monthLengths (isLeap y)).getD (m - 1) 0

/-- The dates `datetime.date` accepts: MINYEAR..MAXYEAR with a day valid
for the month. -/
def validDate (dt : Date) : Prop :=
  1 ≤ dt.y ∧ dt.y ≤ 9999 ∧ 1 ≤ dt.m ∧ dt.m ≤ 12 ∧ 1 ≤ dt.d ∧ dt.d ≤ daysInMonth dt.y dt.m

instance (dt : Date) : Decidable (validDate dt) := by
  unfold validDate
  infer_instance

/-- Days in all years up to and including year index `n` (year `n` being the
`n`-th year after year 1), i.e. CPython `_days_before_year (n+1)`. -/
def daysToYear (n : Nat) : Nat :=
  365 * n + n / 4 - n / 100 + n / 400

/-- Days of year `y` that precede month `m`, CPython `_days_before_month`. -/
def daysBeforeMonth (y m : Nat) : Nat :=
  ((monthLengths (isLeap y)).take (m - 1)).sum

/-- Python `datetime.date.toordinal`: day 1 is 0001-01-01 (CPython `_ymd2ord`). -/
def toOrdinal (dt : Date) : Nat :=
  daysToYear (dt.y - 1) + daysBeforeMonth dt.y dt.m + dt.d

/-- The ASCII digit character of `n % 10`. -/
def dchar (n : Nat) : Char :=
  Char.ofNat (48 + n % 10)

/-- Code point of a character, the key Python compares strings by. -/
def charKey (c : Char) : Nat :=
  c.toNat

/-- Python string `<` on the underlying character lists: lexicographic by
code point, a proper prefix is smaller. -/
def lexLt : List Char → List Char → Bool
  | _, [] => false
  | [], _ :: _ => true
  | a :: as, b :: bs =>
    if charKey a < charKey b then true
    else if charKey b < charKey a then false
    else lexLt as bs

/-- Python `s1 < s2` for `str` operands. -/
def pyStrLt (s1 s2 : String) : Bool :=
  lexLt s1.data s2.data

/-- Python `s1 <= s2` for `str` operands. -/
def pyStrLe (s1 s2 : String) : Bool :=
  !(lexLt s2.data s1.data)

/-- Character list of `dt.strftime("%Y-%m-%d")` (zero-padded fields). -/
def dayStrL (dt : Date) : List Char :=
  [dchar (dt.y / 1000), dchar (dt.y / 100), dchar (dt.y / 10), dchar dt.y, '-',
   dchar (dt.m / 10), dchar dt.m, '-', dchar (dt.d / 10), dchar dt.d]

/-- `dt.strftime("%Y-%m-%d")`, the per-day histogram key (line 126). -/
def dayStr (dt : Date) : String :=
  String.mk (dayStrL dt)

/-- `dt.strftime("%H:%M")`, the timeline entry time (line 147). -/
def hmStr (t : DateTime) : String :=
  String.mk [dchar (t.hour / 10), dchar t.hour, ':', dchar (t.minute / 10), dchar t.minute]

/-- Whether `c` is an ASCII decimal digit. -/
def isDigitChar (c : Char) : Bool :=
  48 ≤ c.toNat && c.toNat ≤ 57

/-- Numeric value of an ASCII digit character. -/
def digitVal (c : Char) : Nat :=
  c.toNat - 48

/-- `datetime.strptime(s, "%Y-%m-%d")` on the zero-padded day strings this
subsystem itself writes (line 157).  Returns `none` where Python raises
`ValueError`. -/
def strptimeDay (s : String) : Option Date :=
  match s.data with
  | [y1, y2, y3, y4, s1, m1, m2, s2, d1, d2] =>
    if isDigitChar y1 && isDigitChar y2 && isDigitChar y3 && isDigitChar y4 &&
       s1 = '-' && isDigitChar m1 && isDigitChar m2 &&
       s2 = '-' && isDigitChar d1 && isDigitChar d2 then
      let y := digitVal y1 * 1000 + digitVal y2 * 100 + digitVal y3 * 10 + digitVal y4
      let m := digitVal m1 * 10 + digitVal m2
      let d := digitVal d1 * 10 + digitVal d2
      if validDate ⟨y, m, d⟩ then some ⟨y, m, d⟩ else none
    else none
  | _ => none

/-- The `MOOD_MAP` table of `analysis.py` lines 17-24, in source order.
Its values are Python *list* literals (not sets). -/
def MOOD_MAP : List (String × List String) :=
  [("happy", ["smile", "happy", "joy", "celebration", "party", "fun", "laugh"]),
   ("calm", ["nature", "water", "sea", "ocean", "sky", "cloud", "mountain", "landscape", "sunset"]),
   ("energetic", ["sport", "running", "exercise", "adventure", "action", "jump", "dance"]),
   ("romantic", ["couple", "love", "candle", "flower", "date", "wedding"]),
   ("melancholy", ["rain", "fog", "mist", "night", "shadow", "dark", "alone"]),
   ("neutral", ["person", "people", "portrait", "face", "building", "urban", "city"])]

/-- A Python collection operand of `&`: either a `set` or a `list`. -/
inductive PyColl where
  | pyset : List String → PyColl
  | pylist : List String → PyColl
deriving DecidableEq, Repr

/-- Python binary `&`.  `set & set` is intersection; `set & list` raises
`TypeError` (lists do not support `&`). -/
def pyAnd : PyColl → PyColl → Except String PyColl
  | .pyset a, .pyset b => .ok (.pyset (a.filter (fun x => x ∈ b)))
  | _, _ => .error "TypeError: unsupported operand type(s) for &"

/-- Python truthiness of a collection: non-empty. -/
def pyTruthy : PyColl → Bool
  | .pyset l => !l.isEmpty
  | .pylist l => !l.isEmpty

/-- Loop body of `label_to_mood`: `for mood, keys in MOOD_MAP.items():
if s & keys: return mood`, where `s = set(label_list)` and each `keys`
is a list.  The `&` raises before any mood can be returned. -/
def label_to_mood_loop (s : PyColl) : List (String × List String) → Except String String
  | [] => .ok "Undefined"
  | (mood, keys) :: rest => do
    let r ← pyAnd s (.pylist keys)
    if pyTruthy r then .ok mood else label_to_mood_loop s rest

/-- `label_to_mood` of `analysis.py` lines 27-32, modelled faithfully:
`s = set(label_list)` then `s & keys` against each list-valued `MOOD_MAP`
entry.  An `Except.error` is a raised exception. -/
def label_to_mood (label_list : List String) : Except String String :=
  label_to_mood_loop (.pyset label_list.dedup) MOOD_MAP

/-- `color_key` of `analysis.py` lines 34-35: `",".join(map(str, rgb))`. -/
def color_key (rgb : List Int) : String :=
  String.intercalate "," (rgb.map (fun i => toString i))

/-- `hour_bucket` of `analysis.py` lines 37-41. -/
def hour_bucket (hour : Nat) : String :=
  if hour ≥ 21 || hour < 5 then "Night"
  else if hour < 12 then "Morning"
  else if hour < 17 then "Afternoon"
  else "Evening"

/-- `datetime.strptime(ts_raw, "%Y:%m:%d %H:%M:%S")` on a zero-padded
EXIF-style timestamp (line 51).  `none` where Python raises.  Python's
`strptime` also tolerates unpadded month/day/time fields, but every such
acceptance still requires a 4-digit year in front, which the claims never
exercise on this branch (see the detection analysis below). -/
def strptimeExif (s : String) : Option DateTime :=
  match s.data with
  | [y1, y2, y3, y4, c1, m1, m2, c2, d1, d2, sp, h1, h2, c3, i1, i2, c4, e1, e2] =>
    if isDigitChar y1 && isDigitChar y2 && isDigitChar y3 && isDigitChar y4 &&
       c1 = ':' && isDigitChar m1 && isDigitChar m2 &&
       c2 = ':' && isDigitChar d1 && isDigitChar d2 && sp = ' ' &&
       isDigitChar h1 && isDigitChar h2 && c3 = ':' &&
       isDigitChar i1 && isDigitChar i2 && c4 = ':' &&
       isDigitChar e1 && isDigitChar e2 then
      let dt : Date := ⟨digitVal y1 * 1000 + digitVal y2 * 100 + digitVal y3 * 10 + digitVal y4,
                        digitVal m1 * 10 + digitVal m2, digitVal d1 * 10 + digitVal d2⟩
      let h := digitVal h1 * 10 + digitVal h2
      let i := digitVal i1 * 10 + digitVal i2
      let e := digitVal e1 * 10 + digitVal e2
      if validDate dt ∧ h ≤ 23 ∧ i ≤ 59 ∧ e ≤ 59 then some ⟨dt, h, i, e⟩ else none
    else none
  | _ => none

/-- The optional `HH[:MM[:SS[.fff / .ffffff]]]` time part of an ISO string. -/
def parseTimePart (cs : List Char) : Option (Nat × Nat × Nat) :=
  match cs with
  | [h1, h2] =>
    if isDigitChar h1 && isDigitChar h2 && digitVal h1 * 10 + digitVal h2 ≤ 23 then
      some (digitVal h1 * 10 + digitVal h2, 0, 0)
    else none
  | [h1, h2, c1, i1, i2] =>
    if isDigitChar h1 && isDigitChar h2 && c1 = ':' && isDigitChar i1 && isDigitChar i2 &&
       digitVal h1 * 10 + digitVal h2 ≤ 23 && digitVal i1 * 10 + digitVal i2 ≤ 59 then
      some (digitVal h1 * 10 + digitVal h2, digitVal i1 * 10 + digitVal i2, 0)
    else none
  | [h1, h2, c1, i1, i2, c2, e1, e2] =>
    if isDigitChar h1 && isDigitChar h2 && c1 = ':' && isDigitChar i1 && isDigitChar i2 &&
       c2 = ':' && isDigitChar e1 && isDigitChar e2 &&
       digitVal h1 * 10 + digitVal h2 ≤ 23 && digitVal i1 * 10 + digitVal i2 ≤ 59 &&
       digitVal e1 * 10 + digitVal e2 ≤ 59 then
      some (digitVal h1 * 10 + digitVal h2, digitVal i1 * 10 + digitVal i2,
            digitVal e1 * 10 + digitVal e2)
    else none
  | h1 :: h2 :: c1 :: i1 :: i2 :: c2 :: e1 :: e2 :: c3 :: frac =>
    if isDigitChar h1 && isDigitChar h2 && c1 = ':' && isDigitChar i1 && isDigitChar i2 &&
       c2 = ':' && isDigitChar e1 && isDigitChar e2 && c3 = '.' &&
       (frac.length = 3 || frac.length = 6) && frac.all isDigitChar &&
       digitVal h1 * 10 + digitVal h2 ≤ 23 && digitVal i1 * 10 + digitVal i2 ≤ 59 &&
       digitVal e1 * 10 + digitVal e2 ≤ 59 then
      some (digitVal h1 * 10 + digitVal h2, digitVal i1 * 10 + digitVal i2,
            digitVal e1 * 10 + digitVal e2)
    else none
  | _ => none

/-- `datetime.fromisoformat` (line 55) for the `YYYY-MM-DD[*HH[:MM[:SS
[.fff / .ffffff]]]]` grammar (any single separator character after the
date, as CPython accepts).  Fractional digits are parsed and discarded;
the aggregation never reads sub-second data.  `none` where Python
raises `ValueError`. -/
def fromisoformat (s : String) : Option DateTime :=
  match s.data with
  | y1 :: y2 :: y3 :: y4 :: s1 :: m1 :: m2 :: s2 :: d1 :: d2 :: rest =>
    if isDigitChar y1 && isDigitChar y2 && isDigitChar y3 && isDigitChar y4 &&
       s1 = '-' && isDigitChar m1 && isDigitChar m2 &&
       s2 = '-' && isDigitChar d1 && isDigitChar d2 then
      let dt : Date := ⟨digitVal y1 * 1000 + digitVal y2 * 100 + digitVal y3 * 10 + digitVal y4,
                        digitVal m1 * 10 + digitVal m2, digitVal d1 * 10 + digitVal d2⟩
      if validDate dt then
        match rest with
        | [] => some ⟨dt, 0, 0, 0⟩
        | _sep :: timecs => (parseTimePart timecs).map (fun t => ⟨dt, t.1, t.2.1, t.2.2⟩)
      else none
    else none
  | _ => none

/-- The try-block of `parse_timestamp` (lines 49-55): the EXIF branch is
chosen when `":" in ts_raw[:4] and ":" in ts_raw[4:7]`; otherwise a
trailing `Z` is stripped and `fromisoformat` is attempted.  `none` when
Python would raise and control falls to the `except` arm. -/
def parse_timestamp_try (ts_raw : String) : Option DateTime :=
  if (ts_raw.data.take 4).contains ':' && ((ts_raw.data.drop 4).take 3).contains ':' then
    strptimeExif ts_raw
  else
    let t := if ts_raw.data.getLast? = some 'Z' then String.mk ts_raw.data.dropLast else ts_raw
    fromisoformat t

/-- `parse_timestamp` (lines 43-58): the `except` arm of any parse failure
returns `datetime.utcnow()`, supplied here as `now`. -/
def parse_timestamp (now : DateTime) (ts_raw : String) : DateTime :=
  (parse_timestamp_try ts_raw).getD now

/-- A Python `Counter` with string keys: an insertion-ordered list of
`(key, count)` pairs, as the JSON round trip preserves. -/
abbrev CMap := List (String × Nat)

/-- `counter[k] += 1`: bump the first binding of `k`, or append `(k, 1)`
(a missing `Counter` key reads as 0 and is inserted on assignment). -/
def cincr : CMap → String → CMap
  | [], k => [(k, 1)]
  | (k0, v) :: rest, k => if k0 = k then (k0, v + 1) :: rest else (k0, v) :: cincr rest k

/-- `counter[k]` as an r-value: 0 when the key is absent. -/
def cget : CMap → String → Nat
  | [], _ => 0
  | (k0, v) :: rest, k => if k0 = k then v else cget rest k

/-- `counter.update(iterable)`: one `+= 1` per element, in order,
counting duplicate elements with multiplicity. -/
def counterUpdate (m : CMap) (xs : List String) : CMap :=
  xs.foldl cincr m

/-- `sum(counter.values())`. -/
def sumVals (m : CMap) : Nat :=
  (m.map (fun p => p.2)).sum

/-- One `busiest_day_photos` entry (lines 146-149). -/
structure TLEntry where
  time : String
  thumb_key : String
deriving DecidableEq, Repr

/-- The per-user wrapped summary document.  `avg_photos_per_day_x100`
holds `avg_photos_per_day` in hundredths, the exact result of rounding
`total/tot_days` to 2 decimal places.  The three derived fields are
absent (`none`) in the skeleton and set on every successful merge. -/
structure Summary where
  total_photos : Nat
  label_counts : CMap
  mood_counts : CMap
  color_counts : CMap
  time_bucket_counts : CMap
  per_day_counts : CMap
  first_date : Option String
  last_date : Option String
  busiest_day : Option String
  busiest_day_photos : List TLEntry
  most_common_label : Option String
  favourite_color : Option (List Int)
  avg_photos_per_day_x100 : Option Int
deriving Repr

/-- The zero-valued skeleton of `handler` lines 94-105. -/
def skeleton : Summary :=
  ⟨0, [], [], [], [], [], none, none, none, [], none, none, none⟩

/-- One input observation document (the meta JSON of §6). -/
structure Obs where
  photo_id : String
  user : Option String
  labels : List String
  dominant_colors : List (List Int)
  capture_time : Option String
  upload_time : String
deriving Repr

/-- Python `a or b` for an optional string `a` (line 122): `None` and the
empty string are falsy. -/
def pyOrStr (a : Option String) (b : String) : String :=
  match a with
  | some s => if s = "" then b else s
  | none => b

/-- Ordering of timeline entries by their `time` string, the sort key of
line 150. -/
def timeLE (a b : TLEntry) : Prop :=
  pyStrLe a.time b.time = true

instance : DecidableRel timeLE := fun a b => by
  unfold timeLE
  infer_instance

/-- `busiest_day_photos.sort(key=lambda x: x["time"])`: an ascending sort
by the `time` string.  The relative order of entries with equal `time`
keys is not relied on by any claim (Python's sort is stable; insertion
sort realises the same multiset sorted by the same key). -/
def sortTimeline (l : List TLEntry) : List TLEntry :=
  l.insertionSort timeLE

/-- First element of `counter.most_common(1)`: the highest count, earliest
inserted among ties (`most_common` reverse-sorts by count with a stable
sort).  `none` when the counter is empty, where `[0]` raises
`IndexError`. -/
def most_common1 : CMap → Option (String × Nat)
  | [] => none
  | p :: rest =>
    match most_common1 rest with
    | none => some p
    | some q => if q.2 > p.2 then some q else some p

/-- The exceptions the merge body can raise.  `typeError` is the
`set & list` TypeError of the mood classification (line 118). -/
inductive MErr where
  | typeError
  | indexError
  | valueError
  | zeroDivisionError
deriving DecidableEq, Repr

/-- Python `key.split(",")` on the character list of a color key. -/
def splitOnComma : List Char → List (List Char)
  | [] => [[]]
  | c :: rest =>
    if c = ',' then [] :: splitOnComma rest
    else
      match splitOnComma rest with
      | [] => [[c]]
      | piece :: more => (c :: piece) :: more

/-- Digit string to number, most significant first. -/
def digitsVal (ds : List Char) : Nat :=
  ds.foldl (fun acc c => 10 * acc + digitVal c) 0

/-- Python `int(s)` on a piece of a color key: optional sign then decimal
digits (surrounding-whitespace tolerance is not modelled; the keys this
code writes never carry it).  `none` where Python raises `ValueError`. -/
def pyInt (cs : List Char) : Option Int :=
  match cs with
  | '-' :: ds =>
    if !ds.isEmpty && ds.all isDigitChar then some (-(digitsVal ds : Int)) else none
  | ds =>
    if !ds.isEmpty && ds.all isDigitChar then some (digitsVal ds : Int) else none

/-- `round(total / tot_days, 2)` of line 159 computed exactly on the
rational `total/den` and returned in hundredths: the nearest multiple of
1/100, ties to even (Python rounds half to even).  `den` is the positive
day span whenever this is reached. -/
def roundHalfEven (total den : Int) : Int :=
  let q := Int.ediv (100 * total) den
  let r := Int.emod (100 * total) den
  if 2 * r < den then q
  else if den < 2 * r then q + 1
  else if Int.emod q 2 = 0 then q else q + 1

/-- `MAX_TIMELINE = int(os.getenv("MAX_TIMELINE", "24"))` (line 10). -/
def MAX_TIMELINE : Nat := 24

/-- `META_PREFIX = os.getenv("META_PREFIX", "meta/")` (line 7; renamed
here, the original spelling is kept in this comment as a string). -/
def META_DIR : String := "meta/"

/-- `ANALYTICS_PREFIX` default `"analytics/"` (line 8). -/
def ANAL_DIR : String := "analytics/"

/-- `THUMB_PREFIX` default `"thumbs/"` (line 9). -/
def THUMB_DIR : String := "thumbs/"

/-- `thumb_key = f"{THUMB_PREFIX}{meta['photo_id']}.jpg"` (line 91). -/
def thumbKeyOf (photo_id : String) : String :=
  THUMB_DIR ++ photo_id ++ ".jpg"

/-- Lines 136-150 of `handler` as a function of their live variables:
the per-day counter after the line-127 increment, the stored champion
and timeline, the observation's day string and the timeline entry lines
146-149 would append.  `summary.get("busiest_day", day_str)` returns the
stored value (the key is always present, None in the skeleton), and the
Counter lookup of a missing None key yields 0.  In the current source
this code is unreachable: every merge raises at line 118 first (see
`label_to_mood` and C4).  Returns the new champion and timeline. -/
def busiestStep (per_day_counts : CMap) (busiest_day : Option String)
    (busiest_day_photos : List TLEntry) (day_str : String) (entry : TLEntry) :
    Option String × List TLEntry :=
  -- line 136
  let bestselling_cnt :=
    match busiest_day with
    | some b => cget per_day_counts b
    | none => 0
  -- line 137
  let today_cnt := cget per_day_counts day_str
  -- lines 140-142
  let busiest_day2 := if today_cnt > bestselling_cnt then some day_str else busiest_day
  let photos0 :=
    if today_cnt > bestselling_cnt then ([] : List TLEntry) else busiest_day_photos
  -- lines 145-150
  let photos :=
    if some day_str = busiest_day2 ∧ photos0.length < MAX_TIMELINE then
      sortTimeline (photos0 ++ [entry])
    else photos0
  (busiest_day2, photos)

/-- Lines 107-150 of `handler`, given the mood string of line 118: every
histogram, date-range, busiest-day and timeline update applied to the
in-memory summary.  In the source `mood = label_to_mood(meta["labels"])`
raises `TypeError` before a mood string ever exists (see `label_to_mood`
and C4), which the enclosing `merge` models; the line 113-115 updates
that precede the raise touch only the in-memory copy and are discarded
with it.  `now` is `datetime.utcnow()` at processing time, used by
`parse_timestamp` when both parses fail. -/
def mergeCore (summary : Summary) (meta : Obs) (mood : String) (now : DateTime) : Summary :=
  let thumb_key := thumbKeyOf meta.photo_id
  -- lines 113-115
  let total_photos := summary.total_photos + 1
  let label_counts := counterUpdate summary.label_counts meta.labels
  let color_counts := counterUpdate summary.color_counts (meta.dominant_colors.map color_key)
  -- line 119 (mood is the line-118 result, passed in)
  let mood_counts := cincr summary.mood_counts mood
  -- lines 122-124
  let dt := parse_timestamp now (pyOrStr meta.capture_time meta.upload_time)
  let time_bucket := hour_bucket dt.hour
  let time_bucket_counts := cincr summary.time_bucket_counts time_bucket
  -- lines 126-127
  let day_str := dayStr dt.date
  let per_day_counts := cincr summary.per_day_counts day_str
  -- lines 130-133: `not summary["first_date"]` is true for None and ""
  let first_date : Option String :=
    match summary.first_date with
    | none => some day_str
    | some f => if f = "" || pyStrLt day_str f then some day_str else some f
  let last_date : Option String :=
    match summary.last_date with
    | none => some day_str
    | some l => if l = "" || pyStrLt l day_str then some day_str else some l
  -- lines 136-150
  let bp := busiestStep per_day_counts summary.busiest_day summary.busiest_day_photos
    day_str ⟨hmStr dt, thumb_key⟩
  { summary with
    total_photos := total_photos
    label_counts := label_counts
    color_counts := color_counts
    mood_counts := mood_counts
    time_bucket_counts := time_bucket_counts
    per_day_counts := per_day_counts
    first_date := first_date
    last_date := last_date
    busiest_day := bp.1
    busiest_day_photos := bp.2 }

/-- Lines 152-165 of `handler`: the derived headline fields, recomputed
from the updated histograms.  `most_common(1)[0]` raises `IndexError` on
an empty counter; `int` on a malformed color-key piece and `strptime` on
a malformed stored date raise `ValueError`; the division of line 159
raises `ZeroDivisionError` when the recomputed day span is zero. -/
def deriveFields (s : Summary) : Except MErr Summary :=
  match most_common1 s.label_counts with
  | none => .error .indexError
  | some mostl =>
    match most_common1 s.color_counts with
    | none => .error .indexError
    | some favk =>
      match (splitOnComma favk.1.data).mapM pyInt with
      | none => .error .valueError
      | some fav_color_rgb =>
        match s.first_date, s.last_date with
        | some f, some l =>
          match strptimeDay f, strptimeDay l with
          | some df, some dl =>
            let tot_days : Int := (toOrdinal dl : Int) - (toOrdinal df : Int) + 1
            if tot_days = 0 then .error .zeroDivisionError
            else
              .ok { s with
                most_common_label := some mostl.1
                favourite_color := some fav_color_rgb
                avg_photos_per_day_x100 := some (roundHalfEven (s.total_photos : Int) tot_days) }
          | _, _ => .error .valueError
        | _, _ => .error .valueError

/-- One merge attempt (lines 107-165): the mood classification of line
118 is evaluated, and its `TypeError` (raised on every input, C4) aborts
the merge; were a mood returned, the remaining updates of lines 113-150
and the derived fields of lines 152-165 would follow.  An `Except.error`
is an exception escaping `handler`; nothing is persisted. -/
def merge (summary : Summary) (meta : Obs) (now : DateTime) : Except MErr Summary :=
  match label_to_mood meta.labels with
  | .error _ => .error .typeError
  | .ok mood => deriveFields (mergeCore summary meta mood now)

/-- A stored S3 JSON document: an observation (meta) or a summary. -/
inductive Doc where
  | obsDoc : Obs → Doc
  | sumDoc : Summary → Doc

/-- The bucket contents, keyed by object key. -/
abbrev Store := String → Option Doc

/-- Result of one `handler` invocation: the bucket afterwards, the
returned status code, and the keys read and written, in order. -/
structure HandlerResult where
  store : Store
  statusCode : Nat
  readKeys : List String
  writeKeys : List String

/-- `handler` of `analysis.py` lines 74-175 over the abstract bucket.
A key outside the meta prefix is skipped with status 200 (lines 79-81);
an unreadable meta document returns status 500 (lines 85-87; a summary
stored under the meta prefix is outside the subsystem's data model and
is treated the same way); otherwise the summary is fetched (skeleton when
absent, lines 94-105), merged, and written back whole (line 173).  An
`Except.error` is an exception escaping the Lambda, writing nothing. -/
def handler (store : Store) (now : DateTime) (meta_key : String) : Except MErr HandlerResult :=
  if !(META_DIR.data.isPrefixOf meta_key.data) then
    .ok ⟨store, 200, [], []⟩
  else
    match store meta_key with
    | some (.obsDoc meta) =>
      let user := meta.user.getD "unknown"
      let wrap_key := ANAL_DIR ++ user ++ "/wrapped.json"
      let summary :=
        match store wrap_key with
        | some (.sumDoc s) => s
        | _ => skeleton
      match merge summary meta now with
      | .error e => .error e
      | .ok s2 =>
        .ok ⟨fun k => if k = wrap_key then some (.sumDoc s2) else store k,
             200, [meta_key, wrap_key], [wrap_key]⟩
    | _ => .ok ⟨store, 500, [meta_key], []⟩

/-- A store interaction of one of two concurrent workers A and B, each
processing one observation for the same user. -/
inductive RaceAct where
  | fetchA
  | fetchB
  | persistA
  | persistB

/-- The store document plus each worker's private copy. -/
structure RaceSt where
  stored : Summary
  regA : Option Summary
  regB : Option Summary

/-- One step of the two-worker race: a fetch copies the stored summary
into the worker's memory; a persist overwrites the stored document whole
with the worker's independently merged result (`s3_put_json` performs a
full-document put with no compare-and-swap, lines 67-71/173).  A worker
whose merge raises persists nothing. -/
def raceStep (a b : Obs) (now : DateTime) (st : RaceSt) : RaceAct → RaceSt
  | .fetchA => { st with regA := some st.stored }
  | .fetchB => { st with regB := some st.stored }
  | .persistA =>
    match st.regA with
    | some s =>
      match merge s a now with
      | .ok m => { st with stored := m }
      | .error _ => st
    | none => st
  | .persistB =>
    match st.regB with
    | some s =>
      match merge s b now with
      | .ok m => { st with stored := m }
      | .error _ => st
    | none => st

/-- An interleaving of the two workers' store interactions. -/
def raceRun (a b : Obs) (now : DateTime) (st : RaceSt) (acts : List RaceAct) : RaceSt :=
  acts.foldl (raceStep a b now) st

/-- A concrete processing instant (`utcnow`) for the closed witnesses. -/
def nowP : DateTime :=
  ⟨⟨2025, 6, 15⟩, 12, 30, 0⟩

/-- Scenario-A-like concrete observation. -/
def obsA1 : Obs :=
  ⟨"p1", some "u", ["smile", "party"], [[10, 10, 10]], none, "2024-01-01T10:00:00Z"⟩

/-- A concrete observation whose timestamp parses in neither format. -/
def obsBad : Obs :=
  ⟨"p3", some "u", ["sea"], [[1, 2, 3]], none, "not-a-date"⟩

/-- A concrete observation with a duplicated label in its list. -/
def obsDup : Obs :=
  ⟨"p4", some "u", ["sea", "sea"], [[1, 2, 3]], none, "2024-01-01T10:00:00Z"⟩

/-! Basic counter lemmas. -/

theorem sumVals_cincr (m : CMap) (k : String) : sumVals (cincr m k) = sumVals m + 1 := by
  induction m with
  | nil => rfl
  | cons p rest ih =>
    by_cases h : p.1 = k
    · simp [cincr, h, sumVals]
      omega
    · simp [cincr, h, sumVals] at ih ⊢
      omega

theorem cget_cincr_self (m : CMap) (k : String) : cget (cincr m k) k = cget m k + 1 := by
  induction m with
  | nil => simp [cincr, cget]
  | cons p rest ih =>
    by_cases h : p.1 = k
    · simp [cincr, cget, h]
    · simp [cincr, cget, h, ih]

theorem cget_cincr_ne (m : CMap) (k k' : String) (h : k ≠ k') :
    cget (cincr m k) k' = cget m k' := by
  induction m with
  | nil => simp [cincr, cget, h]
  | cons p rest ih =>
    by_cases hp : p.1 = k
    · simp [cincr, cget, hp, h]
    · simp [cincr, cget, hp, ih]

theorem cget_counterUpdate (m : CMap) (xs : List String) (k : String) :
    cget (counterUpdate m xs) k = cget m k + xs.count k := by
  induction xs generalizing m with
  | nil => simp [counterUpdate]
  | cons x rest ih =>
    simp only [counterUpdate, List.foldl] at ih ⊢
    rw [ih (cincr m x)]
    by_cases h : x = k
    · subst h
      rw [cget_cincr_self]
      simp [List.count_cons]
      omega
    · rw [cget_cincr_ne m x k h]
      simp [List.count_cons, h]

/-! The derived-field step leaves every aggregated field unchanged. -/

theorem deriveFields_ok {t u : Summary} (h : deriveFields t = .ok u) :
    u.total_photos = t.total_photos ∧ u.label_counts = t.label_counts ∧
    u.mood_counts = t.mood_counts ∧ u.color_counts = t.color_counts ∧
    u.time_bucket_counts = t.time_bucket_counts ∧ u.per_day_counts = t.per_day_counts ∧
    u.first_date = t.first_date ∧ u.last_date = t.last_date ∧
    u.busiest_day = t.busiest_day ∧ u.busiest_day_photos = t.busiest_day_photos := by
  unfold deriveFields at h
  split at h
  · cases h
  · split at h
    · cases h
    · split at h
      · cases h
      · split at h
        · split at h
          · simp only [] at h
            split at h
            · cases h
            · cases h
              exact ⟨rfl, rfl, rfl, rfl, rfl, rfl, rfl, rfl, rfl, rfl⟩
          · cases h
        · cases h

/-! Order lemmas for the code-point lexicographic comparison. -/

theorem lexLt_irrefl (l : List Char) : lexLt l l = false := by
  induction l with
  | nil => rfl
  | cons a as ih => simp [lexLt, ih]

theorem lexLt_asymm {l1 l2 : List Char} (h : lexLt l1 l2 = true) : lexLt l2 l1 = false := by
  induction l1 generalizing l2 with
  | nil =>
    cases l2 with
    | nil => simp [lexLt] at h
    | cons b bs => rfl
  | cons a as ih =>
    cases l2 with
    | nil => simp [lexLt] at h
    | cons b bs =>
      simp only [lexLt] at h ⊢
      split_ifs at h ⊢ <;> first | rfl | omega | exact ih h

theorem lexLt_false_trans {l1 l2 l3 : List Char} (h1 : lexLt l1 l2 = false)
    (h2 : lexLt l2 l3 = false) : lexLt l1 l3 = false := by
  induction l1 generalizing l2 l3 with
  | nil =>
    cases l2 with
    | nil => exact h2
    | cons b bs => simp [lexLt] at h1
  | cons a as ih =>
    cases l3 with
    | nil => rfl
    | cons c cs =>
      cases l2 with
      | nil => simp [lexLt] at h2
      | cons b bs =>
        simp only [lexLt] at h1 h2 ⊢
        split_ifs at h1 h2 ⊢ <;> first | rfl | omega | exact ih h1 h2

instance : IsTrans TLEntry timeLE := by
  constructor
  intro a b c hab hbc
  unfold timeLE pyStrLe at hab hbc ⊢
  simp only [Bool.not_eq_true'] at hab hbc ⊢
  exact lexLt_false_trans hbc hab

instance : IsTotal TLEntry timeLE := by
  constructor
  intro a b
  unfold timeLE pyStrLe
  simp only [Bool.not_eq_true']
  by_cases h : lexLt b.time.data a.time.data = false
  · exact Or.inl h
  · exact Or.inr (lexLt_asymm (Bool.not_eq_false _ ▸ h))

theorem sortTimeline_sorted (l : List TLEntry) : List.Sorted timeLE (sortTimeline l) :=
  List.sorted_insertionSort timeLE l

theorem sortTimeline_length (l : List TLEntry) : (sortTimeline l).length = l.length :=
  List.length_insertionSort timeLE l

/-- The classifier raises on every input: already the first `MOOD_MAP`
iteration evaluates `set & list`. -/
theorem label_to_mood_error (ls : List String) :
    label_to_mood ls = .error "TypeError: unsupported operand type(s) for &" := rfl

/-- Hence no merge ever completes: every call aborts at the mood step of
line 118 with the classifier's TypeError, before the timestamp, per-day,
date-range, busiest-day and derived-field steps. -/
theorem merge_always_raises (s : Summary) (o : Obs) (now : DateTime) :
    merge s o now = .error .typeError := by
  unfold merge
  rw [label_to_mood_error]

/-- C1: the sum invariant is never re-established by `handler`, because
no merged summary is ever persisted: an in-scope event with a readable
observation reaches the mood step of line 118, the merge aborts with the
classifier's TypeError, and the store is never written. -/
theorem C1_nothing_persisted (store : Store) (now : DateTime) (meta_key : String) (o : Obs)
    (hk : META_DIR.data.isPrefixOf meta_key.data = true)
    (hs : store meta_key = some (.obsDoc o)) :
    handler store now meta_key = .error .typeError := by
  unfold handler
  rw [hk]
  simp only [Bool.not_true, Bool.false_eq_true, if_false, hs]
  rw [merge_always_raises]

/-- Witness for C1 at a concrete in-scope event. -/
theorem C1_witness :
    handler (fun k => if k = "meta/u/p1.json" then some (Doc.obsDoc obsA1) else none) nowP
      "meta/u/p1.json" = .error .typeError := by
  refine C1_nothing_persisted _ nowP _ obsA1 (by decide) ?_
  simp

/-- C4: the mood classifier does not return a mood category: its
`set(label_list) & keys` intersects a set with the list-valued `MOOD_MAP`
entry, which raises `TypeError` - even for a label list that should map
to "happy". -/
theorem C4_label_to_mood_raises_TypeError :
    label_to_mood ["smile"] = .error "TypeError: unsupported operand type(s) for &" := rfl

/-- C5: a well-formed Format A timestamp `YYYY:MM:DD HH:MM:SS` is not
recognised - the detection rule looks for a colon among the first four
characters, which are the four year digits, so the EXIF branch is never
taken, `fromisoformat` rejects the colon-dated string, and the current
processing time is returned instead of the encoded date and hour. -/
theorem C5_formatA_falls_back_to_now :
    parse_timestamp nowP "2024:01:02 10:11:12" = nowP ∧
    parse_timestamp_try "2024:01:02 10:11:12" = none ∧
    (("2024:01:02 10:11:12" : String).data.take 4).contains ':' = false :=
  ⟨rfl, rfl, rfl⟩

/-- C6 (amended): the line-114 update (`Counter.update` on the raw label
list) increments `label_counts[l]` by the multiplicity of `l` in the
observation's label list - duplicates are counted, not collapsed - and
by exactly 1 per distinct label only for a duplicate-free list.  The
merge then aborts at line 118 (C4), so the updated counter is never
persisted. -/
theorem C6_label_update_by_multiplicity (m : CMap) (xs : List String) :
    (∀ l : String, cget (counterUpdate m xs) l = cget m l + xs.count l) ∧
    (xs.Nodup → ∀ l ∈ xs, cget (counterUpdate m xs) l = cget m l + 1) := by
  constructor
  · intro l
    exact cget_counterUpdate m xs l
  · intro hnd l hmem
    rw [cget_counterUpdate, List.count_eq_one_of_mem hnd hmem]

/-- Counterexample to C6 as stated: at an observation with a duplicated
label, the merge neither collapses the duplicate (the line-114 update
counts it twice) nor completes at all (line 118 raises), so no entry is
incremented by exactly 1 per distinct label. -/
theorem C6_counterexample :
    merge skeleton obsDup nowP = .error .typeError ∧
    cget (counterUpdate skeleton.label_counts obsDup.labels) "sea" = 2 ∧
    (2 : Nat) ≠ cget skeleton.label_counts "sea" + 1 :=
  ⟨rfl, rfl, by decide⟩

/-- Witness for the amended C6 at a duplicate-free label list. -/
theorem C6_witness :
    cget (counterUpdate skeleton.label_counts obsA1.labels) "smile"
      = cget skeleton.label_counts "smile" + 1 :=
  (C6_label_update_by_multiplicity skeleton.label_counts obsA1.labels).2 (by decide) "smile"
    (by decide)

/-- C7: `parse_timestamp` indeed never raises - the unparseable string
falls back to the current processing instant - but the event is NOT
still merged: the merge aborts at the mood step of line 118 before any
histogram is touched, whatever the timestamp. -/
theorem C7_fallback_but_never_merged :
    parse_timestamp_try "not-a-date" = none ∧
    parse_timestamp nowP "not-a-date" = nowP ∧
    merge skeleton obsBad nowP = .error .typeError :=
  ⟨rfl, rfl, rfl⟩

/-- C9: the lost-update anomaly cannot occur in the source: in the
two-worker interleaving both merges raise the classifier TypeError, so
neither worker ever persists and the stored summary still reflects
neither observation - not "only one of the two". -/
theorem C9_no_worker_persists (s0 : Summary) (a b : Obs) (now : DateTime) :
    raceRun a b now ⟨s0, none, none⟩ [.fetchA, .fetchB, .persistA, .persistB]
      = ⟨s0, some s0, some s0⟩ := by
  simp [raceRun, raceStep, merge_always_raises]

/-- C10: an event whose key is not under the meta prefix returns status
200 immediately, reads nothing, writes nothing, and leaves the store as
it was. -/
theorem C10_skips_non_meta_keys (store : Store) (now : DateTime) (meta_key : String)
    (h : META_DIR.data.isPrefixOf meta_key.data = false) :
    handler store now meta_key = .ok ⟨store, 200, [], []⟩ := by
  unfold handler
  rw [h]
  rfl

/-- Witness for C10 at a key under the uploads prefix. -/
theorem C10_witness :
    handler (fun _ => none) nowP "uploads/p1.jpg" = .ok ⟨fun _ => none, 200, [], []⟩ :=
  C10_skips_non_meta_keys (fun _ => none) nowP "uploads/p1.jpg" (by decide)

/-- C2 (amended): the busiest-day re-evaluation of lines 136-150, when
reached with the updated per-day counter (in the current source it never
is - every merge aborts at line 118, C4), uses `champion_count` =
`per_day_counts[busiest_day]` when a champion exists and 0 otherwise
(the stored None is looked up in the Counter as a missing key), so the
first observation's day always takes over; the champion changes exactly
when `today_count > champion_count`, a tie never takes over, and on a
takeover the timeline is reset and holds only the new day's entry, never
backfilled ones. -/
theorem C2_busiest_step_update (pd : CMap) (bd : Option String) (ph : List TLEntry)
    (day : String) (entry : TLEntry) :
    (busiestStep pd bd ph day entry).1
      = (if cget pd day > (match bd with | some b => cget pd b | none => 0) then some day
         else bd) ∧
    (cget pd day > (match bd with | some b => cget pd b | none => 0) →
      (busiestStep pd bd ph day entry).1 = some day ∧
      (busiestStep pd bd ph day entry).2 = [entry]) ∧
    (cget pd day = (match bd with | some b => cget pd b | none => 0) →
      (busiestStep pd bd ph day entry).1 = bd) := by
  unfold busiestStep
  simp only []
  by_cases hg : cget pd day > (match bd with | some b => cget pd b | none => 0)
  · rw [if_pos hg, if_pos hg]
    refine ⟨trivial, fun _ => ⟨rfl, ?_⟩, fun he => absurd hg (by omega)⟩
    rw [if_pos ⟨rfl, by decide⟩]
    rfl
  · rw [if_neg hg, if_neg hg]
    exact ⟨trivial, fun h => absurd h hg, fun _ => rfl⟩

/-- Counterexample to C2 as stated: the claimed merge-level re-evaluation
never happens (the merge aborts at line 118); and the step logic itself
refutes the claimed default: with no champion stored, the first day is
installed although `today_count > per_day_counts[day_str]` is false. -/
theorem C2_counterexample :
    merge skeleton obsA1 nowP = .error .typeError ∧
    (busiestStep [("2024-01-01", 1)] none [] "2024-01-01" ⟨"10:00", "thumbs/p1.jpg"⟩).1
      = some "2024-01-01" ∧
    ¬ cget [("2024-01-01", 1)] "2024-01-01" > cget [("2024-01-01", 1)] "2024-01-01" :=
  ⟨rfl, rfl, by decide⟩

/-- Witness for the amended C2: a later day strictly exceeding the
stored champion takes over and the timeline resets to its entry. -/
theorem C2_witness :
    (busiestStep [("2024-01-01", 1), ("2024-01-02", 2)] (some "2024-01-01") []
        "2024-01-02" ⟨"09:00", "thumbs/p9.jpg"⟩).1 = some "2024-01-02" ∧
    (busiestStep [("2024-01-01", 1), ("2024-01-02", 2)] (some "2024-01-01") []
        "2024-01-02" ⟨"09:00", "thumbs/p9.jpg"⟩).2 = [⟨"09:00", "thumbs/p9.jpg"⟩] :=
  (C2_busiest_step_update [("2024-01-01", 1), ("2024-01-02", 2)] (some "2024-01-01") []
    "2024-01-02" ⟨"09:00", "thumbs/p9.jpg"⟩).2.1 (by decide)

/-- C3: the timeline maintenance of lines 145-150 implements exactly the
claimed policy - the list stays bounded by `MAX_TIMELINE` and re-sorted
ascending by the `HH:MM` string, nothing is appended once full while the
line-127 per-day increment still applies - but in the source this code
never runs: every merge aborts at line 118 with the classifier
TypeError, so no merge ever preserves (or touches) the timeline. -/
theorem C3_timeline_step_sound_but_unreachable (s : Summary) (o : Obs) (now : DateTime)
    (pd0 pd : CMap) (bd : Option String) (ph : List TLEntry) (day : String) (entry : TLEntry)
    (hlen : ph.length ≤ MAX_TIMELINE) (hsort : List.Sorted timeLE ph) :
    merge s o now = .error .typeError ∧
    cget (cincr pd0 day) day = cget pd0 day + 1 ∧
    (busiestStep pd bd ph day entry).2.length ≤ MAX_TIMELINE ∧
    List.Sorted timeLE (busiestStep pd bd ph day entry).2 ∧
    (bd = some day → ph.length = MAX_TIMELINE → (busiestStep pd bd ph day entry).2 = ph) := by
  refine ⟨merge_always_raises s o now, cget_cincr_self pd0 day, ?_⟩
  unfold busiestStep
  simp only []
  by_cases hg : cget pd day > (match bd with | some b => cget pd b | none => 0)
  · rw [if_pos hg, if_pos hg, if_pos ⟨rfl, by decide⟩]
    refine ⟨?_, sortTimeline_sorted _, ?_⟩
    · rw [sortTimeline_length]
      simp [MAX_TIMELINE]
    · intro hbd hfull
      exfalso
      rw [hbd] at hg
      simp only [] at hg
      omega
  · rw [if_neg hg, if_neg hg]
    by_cases hc : some day = bd ∧ ph.length < MAX_TIMELINE
    · rw [if_pos hc]
      refine ⟨?_, sortTimeline_sorted _, ?_⟩
      · rw [sortTimeline_length, List.length_append]
        have h2 := hc.2
        simp
        omega
      · intro _ hfull
        exact absurd hc.2 (by omega)
    · rw [if_neg hc]
      exact ⟨hlen, hsort, fun _ _ => rfl⟩

/-- Witness for C3 at a concrete single-entry step. -/
theorem C3_witness :
    (busiestStep [("2024-01-01", 1)] none [] "2024-01-01"
        ⟨"10:00", "thumbs/p1.jpg"⟩).2.length ≤ MAX_TIMELINE ∧
    List.Sorted timeLE (busiestStep [("2024-01-01", 1)] none [] "2024-01-01"
      ⟨"10:00", "thumbs/p1.jpg"⟩).2 := by
  have h := C3_timeline_step_sound_but_unreachable skeleton obsA1 nowP []
    [("2024-01-01", 1)] none [] "2024-01-01" ⟨"10:00", "thumbs/p1.jpg"⟩ (by decide)
    List.sorted_nil
  exact ⟨h.2.2.1, h.2.2.2.1⟩

/-! Digit characters and calendar arithmetic, toward the C8 day-span
analysis. -/

theorem charKey_dchar (n : Nat) : charKey (dchar n) = 48 + n % 10 := by
  have h : (48 + n % 10).isValidChar := by
    left
    omega
  unfold charKey dchar
  rw [Char.ofNat, dif_pos h]
  rfl

theorem isDigitChar_dchar (n : Nat) : isDigitChar (dchar n) = true := by
  have h := charKey_dchar n
  unfold charKey at h
  unfold isDigitChar
  rw [h]
  simp
  omega

theorem digitVal_dchar (n : Nat) : digitVal (dchar n) = n % 10 := by
  have h := charKey_dchar n
  unfold charKey at h
  unfold digitVal
  omega

theorem daysInMonth_le_31 {y m : Nat} (h1 : 1 ≤ m) (h2 : m ≤ 12) :
    daysInMonth y m ≤ 31 := by
  unfold daysInMonth
  cases hL : isLeap y <;> simp only [hL, monthLengths] <;>
    interval_cases m <;> simp [List.getD]

set_option maxHeartbeats 1000000 in
theorem daysToYear_succ (n : Nat) :
    daysToYear (n + 1) = daysToYear n + 365 + (if isLeap (n + 1) then 1 else 0) := by
  unfold daysToYear
  by_cases h : isLeap (n + 1)
  · rw [if_pos h]
    unfold isLeap at h
    simp only [Bool.or_eq_true, Bool.and_eq_true, beq_iff_eq, bne_iff_ne, ne_eq] at h
    omega
  · rw [if_neg h]
    unfold isLeap at h
    simp only [Bool.or_eq_true, Bool.and_eq_true, beq_iff_eq, bne_iff_ne, ne_eq,
      not_or, not_and, Decidable.not_not] at h
    omega

theorem daysToYear_mono {a b : Nat} (h : a ≤ b) : daysToYear a ≤ daysToYear b := by
  induction b with
  | zero => simp_all [daysToYear]
  | succ n ih =>
    rcases Nat.lt_or_ge a (n + 1) with h2 | h2
    · have hle := ih (by omega)
      have hs := daysToYear_succ n
      split at hs <;> omega
    · have ha : a = n + 1 := by omega
      rw [ha]

theorem doy_bounds {y m d : Nat} (hm1 : 1 ≤ m) (hm2 : m ≤ 12) (hd1 : 1 ≤ d)
    (hd2 : d ≤ daysInMonth y m) :
    1 ≤ daysBeforeMonth y m + d ∧
    daysBeforeMonth y m + d ≤ 365 + (if isLeap y then 1 else 0) := by
  unfold daysBeforeMonth
  unfold daysInMonth at hd2
  cases hL : isLeap y <;> simp only [hL, monthLengths] at hd2 ⊢ <;>
    interval_cases m <;> simp [List.getD] at hd2 ⊢ <;> omega

theorem dbm_lt {y m1 d1 m2 d2 : Nat} (hm1 : 1 ≤ m1) (hm12 : m1 ≤ 12) (hm2 : 1 ≤ m2)
    (hm22 : m2 ≤ 12) (hlt : m1 < m2) (hd1 : d1 ≤ daysInMonth y m1) (hd2 : 1 ≤ d2) :
    daysBeforeMonth y m1 + d1 < daysBeforeMonth y m2 + d2 := by
  unfold daysBeforeMonth
  unfold daysInMonth at hd1
  cases hL : isLeap y <;> simp only [hL, monthLengths] at hd1 ⊢ <;>
    interval_cases m1 <;> interval_cases m2 <;> simp [List.getD] at hd1 ⊢ <;> omega

/-- One step of the lexicographic comparison, phrased without `if`. -/
theorem lexLt_cons_iff {a b : Char} {as bs : List Char} :
    lexLt (a :: as) (b :: bs) = true ↔
      (charKey a < charKey b ∨ (charKey a = charKey b ∧ lexLt as bs = true)) := by
  simp only [lexLt]
  split_ifs with h1 h2
  · simp [h1]
  · simp only [Bool.false_eq_true, false_iff, not_or, not_and]
    exact ⟨fun h => absurd h h1, fun heq => absurd h2 (by omega)⟩
  · have heq : charKey a = charKey b := by omega
    simp [heq, h1]

/-- Strict monotonicity of the ordinal in the (year, month, day) order. -/
theorem toOrdinal_lt {d1 d2 : Date} (h1 : validDate d1) (h2 : validDate d2)
    (h : d1.y < d2.y ∨ (d1.y = d2.y ∧ (d1.m < d2.m ∨ (d1.m = d2.m ∧ d1.d < d2.d)))) :
    toOrdinal d1 < toOrdinal d2 := by
  obtain ⟨hy1, hy1b, hm1, hm1b, hd1, hd1b⟩ := h1
  obtain ⟨hy2, hy2b, hm2, hm2b, hd2, hd2b⟩ := h2
  unfold toOrdinal
  rcases h with hy | ⟨hyeq, hm | ⟨hmeq, hd⟩⟩
  · have hb1 := doy_bounds (y := d1.y) hm1 hm1b hd1 hd1b
    have hb2 := doy_bounds (y := d2.y) hm2 hm2b hd2 hd2b
    have hstep := daysToYear_succ (d1.y - 1)
    have hy1' : d1.y - 1 + 1 = d1.y := by omega
    rw [hy1'] at hstep
    have hmono : daysToYear d1.y ≤ daysToYear (d2.y - 1) := daysToYear_mono (by omega)
    rcases hb1 with ⟨hb1a, hb1b⟩
    rcases hb2 with ⟨hb2a, _⟩
    cases hL : isLeap d1.y <;> simp only [hL] at hstep hb1b <;>
      simp at hstep hb1b <;> omega
  · rw [hyeq] at hd1b ⊢
    have := dbm_lt (y := d2.y) hm1 hm1b hm2 hm2b hm hd1b hd2
    omega
  · rw [hyeq] at hd1b ⊢
    rw [hmeq]
    omega

/-- The code-point order on two `strftime("%Y-%m-%d")` strings agrees with
the chronological order of the dates: the backbone of the C8 analysis. -/
theorem lexLt_dayStrL_iff {d1 d2 : Date} (h1 : validDate d1) (h2 : validDate d2) :
    lexLt (dayStrL d1) (dayStrL d2) = true ↔ toOrdinal d1 < toOrdinal d2 := by
  have c45 : charKey '-' = 45 := rfl
  have cnil : lexLt [] [] = false := rfl
  obtain ⟨hy1, hy1b, hm1, hm1b, hd1c, hd1b⟩ := h1
  obtain ⟨hy2, hy2b, hm2, hm2b, hd2c, hd2b⟩ := h2
  have h31a : d1.d ≤ 31 := le_trans hd1b (daysInMonth_le_31 hm1 hm1b)
  have h31b : d2.d ≤ 31 := le_trans hd2b (daysInMonth_le_31 hm2 hm2b)
  have key : lexLt (dayStrL d1) (dayStrL d2) = true ↔
      (d1.y < d2.y ∨ (d1.y = d2.y ∧ (d1.m < d2.m ∨ (d1.m = d2.m ∧ d1.d < d2.d)))) := by
    have qa1 : d1.y / 100 / 10 = d1.y / 1000 := by rw [Nat.div_div_eq_div_mul]
    have qa2 : d1.y / 10 / 10 = d1.y / 100 := by rw [Nat.div_div_eq_div_mul]
    have qe1 : d2.y / 100 / 10 = d2.y / 1000 := by rw [Nat.div_div_eq_div_mul]
    have qe2 : d2.y / 10 / 10 = d2.y / 100 := by rw [Nat.div_div_eq_div_mul]
    have pa1 : d1.y / 1000 % 10 = d1.y / 1000 := by omega
    have pa2 : d1.y / 100 % 10 = d1.y / 100 - 10 * (d1.y / 1000) := by omega
    have pa3 : d1.y / 10 % 10 = d1.y / 10 - 10 * (d1.y / 100) := by omega
    have pa4 : d1.y % 10 = d1.y - 10 * (d1.y / 10) := by omega
    have pe1 : d2.y / 1000 % 10 = d2.y / 1000 := by omega
    have pe2 : d2.y / 100 % 10 = d2.y / 100 - 10 * (d2.y / 1000) := by omega
    have pe3 : d2.y / 10 % 10 = d2.y / 10 - 10 * (d2.y / 100) := by omega
    have pe4 : d2.y % 10 = d2.y - 10 * (d2.y / 10) := by omega
    have ma1 : d1.m / 10 % 10 = d1.m / 10 := by omega
    have ma2 : d1.m % 10 = d1.m - 10 * (d1.m / 10) := by omega
    have me1 : d2.m / 10 % 10 = d2.m / 10 := by omega
    have me2 : d2.m % 10 = d2.m - 10 * (d2.m / 10) := by omega
    have da1 : d1.d / 10 % 10 = d1.d / 10 := by omega
    have da2 : d1.d % 10 = d1.d - 10 * (d1.d / 10) := by omega
    have de1 : d2.d / 10 % 10 = d2.d / 10 := by omega
    have de2 : d2.d % 10 = d2.d - 10 * (d2.d / 10) := by omega
    simp only [dayStrL, lexLt_cons_iff, charKey_dchar, cnil, Bool.false_eq_true, and_false,
      or_false, lt_self_iff_false, false_or, true_and, add_lt_add_iff_left, add_right_inj,
      pa1, pa2, pa3, pa4, pe1, pe2, pe3, pe4, ma1, ma2, me1, me2, da1, da2, de1, de2]
    omega
  rw [key]
  constructor
  · exact fun h =>
      toOrdinal_lt ⟨hy1, hy1b, hm1, hm1b, hd1c, hd1b⟩ ⟨hy2, hy2b, hm2, hm2b, hd2c, hd2b⟩ h
  · intro h
    rcases Nat.lt_trichotomy d1.y d2.y with hy | hy | hy
    · exact Or.inl hy
    · rcases Nat.lt_trichotomy d1.m d2.m with hm | hm | hm
      · exact Or.inr ⟨hy, Or.inl hm⟩
      · rcases Nat.lt_trichotomy d1.d d2.d with hd | hd | hd
        · exact Or.inr ⟨hy, Or.inr ⟨hm, hd⟩⟩
        · exfalso
          have : d1 = d2 := by
            cases d1
            cases d2
            simp_all
          rw [this] at h
          omega
        · exfalso
          have := toOrdinal_lt ⟨hy2, hy2b, hm2, hm2b, hd2c, hd2b⟩
            ⟨hy1, hy1b, hm1, hm1b, hd1c, hd1b⟩ (Or.inr ⟨hy.symm, Or.inr ⟨hm.symm, hd⟩⟩)
          omega
      · exfalso
        have := toOrdinal_lt ⟨hy2, hy2b, hm2, hm2b, hd2c, hd2b⟩
          ⟨hy1, hy1b, hm1, hm1b, hd1c, hd1b⟩ (Or.inr ⟨hy.symm, Or.inl hm⟩)
        omega
    · exfalso
      have := toOrdinal_lt ⟨hy2, hy2b, hm2, hm2b, hd2c, hd2b⟩
        ⟨hy1, hy1b, hm1, hm1b, hd1c, hd1b⟩ (Or.inl hy)
      omega

/-- Python `<` on two day strings mirrors the chronological order. -/
theorem pyStrLt_dayStr_iff {d1 d2 : Date} (h1 : validDate d1) (h2 : validDate d2) :
    pyStrLt (dayStr d1) (dayStr d2) = true ↔ toOrdinal d1 < toOrdinal d2 :=
  lexLt_dayStrL_iff h1 h2

/-- A formatted day string is never empty. -/
theorem dayStr_ne_empty (d : Date) : ¬ dayStr d = "" := by
  intro h
  have h2 := congrArg String.data h
  simp [dayStr, dayStrL] at h2

/-- Reparsing a day string this subsystem wrote recovers the same date
(the `strptime` of line 157 on the stored `first_date`/`last_date`). -/
theorem strptimeDay_dayStr {d : Date} (h : validDate d) : strptimeDay (dayStr d) = some d := by
  obtain ⟨hy, hyb, hm, hmb, hd, hdb⟩ := h
  have hd31 : d.d ≤ 31 := le_trans hdb (daysInMonth_le_31 hm hmb)
  have qa1 : d.y / 100 / 10 = d.y / 1000 := by rw [Nat.div_div_eq_div_mul]
  have qa2 : d.y / 10 / 10 = d.y / 100 := by rw [Nat.div_div_eq_div_mul]
  unfold dayStr
  simp only [strptimeDay, dayStrL, isDigitChar_dchar, digitVal_dchar, Bool.and_self,
    Bool.true_and, Bool.and_true, if_true]
  have e1 : d.y / 1000 % 10 * 1000 + d.y / 100 % 10 * 100 + d.y / 10 % 10 * 10 + d.y % 10
      = d.y := by omega
  have e2 : d.m / 10 % 10 * 10 + d.m % 10 = d.m := by omega
  have e3 : d.d / 10 % 10 * 10 + d.d % 10 = d.d := by omega
  simp only [e1, e2, e3]
  simp
  exact ⟨hy, hyb, hm, hmb, hd, hdb⟩

/-- A successful EXIF-format parse yields a constructible date. -/
theorem strptimeExif_valid {s : String} {t : DateTime} (h : strptimeExif s = some t) :
    validDate t.date := by
  unfold strptimeExif at h
  split at h
  · split at h
    · simp only [] at h
      split at h
      · rename_i hcond
        cases h
        exact hcond.1
      · cases h
    · cases h
  · cases h

/-- A successful ISO-format parse yields a constructible date. -/
theorem fromisoformat_valid {s : String} {t : DateTime} (h : fromisoformat s = some t) :
    validDate t.date := by
  unfold fromisoformat at h
  split at h
  · split at h
    · simp only [] at h
      split at h
      · rename_i hv
        split at h
        · cases h
          exact hv
        · rcases Option.map_eq_some'.mp h with ⟨u, _, hu⟩
          rw [← hu]
          exact hv
      · cases h
    · cases h
  · cases h

/-- The normalized time of any input carries a constructible date as long
as the processing instant does: parsed dates are range-checked and the
fallback is the processing instant itself. -/
theorem parse_timestamp_valid {now : DateTime} (hnow : validDate now.date) (ts : String) :
    validDate (parse_timestamp now ts).date := by
  unfold parse_timestamp
  cases hp : parse_timestamp_try ts with
  | none => simpa using hnow
  | some t =>
    simp only [Option.getD_some]
    unfold parse_timestamp_try at hp
    split at hp
    · exact strptimeExif_valid hp
    · simp only [] at hp
      exact fromisoformat_valid hp

/-- When both stored date bounds are day strings of constructible dates in
chronological order, the derived-field step cannot divide by zero, and on
success stores the rounded average over the positive inclusive span. -/
theorem deriveFields_dates {t : Summary} {df dl : Date}
    (hf : t.first_date = some (dayStr df)) (hl : t.last_date = some (dayStr dl))
    (hvf : validDate df) (hvl : validDate dl) (hord : toOrdinal df ≤ toOrdinal dl) :
    deriveFields t ≠ .error .zeroDivisionError ∧
    ∀ u, deriveFields t = .ok u →
      u.avg_photos_per_day_x100 = some (roundHalfEven (u.total_photos : Int)
        ((toOrdinal dl : Int) - (toOrdinal df : Int) + 1)) := by
  have hspan : ¬ ((toOrdinal dl : Int) - (toOrdinal df : Int) + 1 = 0) := by omega
  constructor
  · intro hz
    unfold deriveFields at hz
    rw [hf, hl] at hz
    simp only [strptimeDay_dayStr hvf, strptimeDay_dayStr hvl] at hz
    split at hz
    · simp at hz
    · split at hz
      · simp at hz
      · split at hz
        · simp at hz
        · split at hz
          · rename_i hzero
            exact hspan hzero
          · simp at hz
  · intro u hu
    have htot := (deriveFields_ok hu).1
    unfold deriveFields at hu
    rw [hf, hl] at hu
    simp only [strptimeDay_dayStr hvf, strptimeDay_dayStr hvl] at hu
    split at hu
    · simp at hu
    · split at hu
      · simp at hu
      · split at hu
        · simp at hu
        · split at hu
          · simp at hu
          · cases hu
            simp_all

/-- C8: the division of line 159 is indeed safe whenever the stored date
bounds are day strings in chronological order - the reparsed inclusive
span is at least 1 and the ZeroDivisionError branch is unreachable - but
in the source lines 152-165 are themselves unreachable: every merge
aborts at line 118, so `first_date`/`last_date` are never set by a
completed merge and no average is ever computed at all. -/
theorem C8_avg_step_safe_but_unreachable (s : Summary) (o : Obs) (now : DateTime)
    (t : Summary) (df dl : Date) (hvf : validDate df) (hvl : validDate dl)
    (hf : t.first_date = some (dayStr df)) (hl : t.last_date = some (dayStr dl))
    (hord : toOrdinal df ≤ toOrdinal dl) :
    merge s o now = .error .typeError ∧
    deriveFields t ≠ .error .zeroDivisionError ∧
    ∀ u, deriveFields t = .ok u →
      u.avg_photos_per_day_x100 = some (roundHalfEven (u.total_photos : Int)
        ((toOrdinal dl : Int) - (toOrdinal df : Int) + 1)) := by
  have hd := deriveFields_dates hf hl hvf hvl hord
  exact ⟨merge_always_raises s o now, hd.1, hd.2⟩

/-- Witness for C8 at a concrete summary with both date bounds set. -/
theorem C8_witness :
    deriveFields { skeleton with
      total_photos := 1
      label_counts := [("a", 1)]
      color_counts := [("1,2,3", 1)]
      first_date := some "2024-01-01"
      last_date := some "2024-01-02" } ≠ Except.error MErr.zeroDivisionError :=
  (C8_avg_step_safe_but_unreachable skeleton obsA1 nowP
    { skeleton with
      total_photos := 1
      label_counts := [("a", 1)]
      color_counts := [("1,2,3", 1)]
      first_date := some "2024-01-01"
      last_date := some "2024-01-02" } ⟨2024, 1, 1⟩ ⟨2024, 1, 2⟩
    (by decide) (by decide) (by decide) (by decide) (by decide)).2.1
